import Mathlib

/-!
Verification development for the `ollama-ctl` REST client
(`src/ollama_ctl/client.py`, `src/ollama_ctl/models.py`,
`src/ollama_ctl/utils.py`).

The embedding models the transport layer abstractly: the result of one
HTTP exchange (connection failure, timeout, or a response with a status
code and body) is an explicit datum, and each client method is a pure
function of that datum, mirroring the Python control flow of the
corresponding method.  JSON values as produced by Python's `json.loads`
are modelled by the inductive `Json` (numbers as rationals).  Python's
`json.loads` itself is a standard-library function and is carried as an
explicit parameter `loads : String → Option Json` wherever the code
calls it on stream lines (`none` models a raised `JSONDecodeError`).
-/

/-- JSON values as materialised by Python's `json.loads`: `null`, booleans,
numbers (modelled as rationals), strings, arrays, and objects (string-keyed
maps; `json.loads` yields dicts, so keys are unique). -/
inductive Json where
  | null
  | bool (b : Bool)
  | num (n : Rat)
  | str (s : String)
  | arr (elems : List Json)
  | obj (fields : List (String × Json))

/-- Key lookup in a decoded JSON object, modelling Python dict access
(`json.loads` produces dicts, hence unique keys; first match suffices). -/
def lookupField : List (String × Json) → String → Option Json
  | [], _ => none
  | (k, v) :: rest, key => if k = key then some v else lookupField rest key

/-- Field access on a JSON value: `some` only for objects holding the key. -/
def Json.getField : Json → String → Option Json
  | .obj fields, key => lookupField fields key
  | _, _ => none

/-- Whether a JSON value is the literal `null`. -/
def Json.isNull : Json → Bool
  | .null => true
  | _ => false

/-- The error taxonomy of `client.py`: `OllamaConnectionError`,
`OllamaAPIError` (whose message is whatever Python value was extracted —
hence a `Json` — and whose `status_code` is `Optional[int]`), and the base
`OllamaClientError` raised directly for local decode failures. -/
inductive OllamaError where
  | connectionError (message : String)
  | apiError (message : Json) (statusCode : Option Nat)
  | clientError (message : String)

/-- An exception escaping a client method: either one of the taxonomy
errors above, or an uncaught Python `TypeError` (raised by `Model(**data)`
when `data` is valid JSON but not an object — only `ValidationError` is
caught at those sites). -/
inductive PyError where
  | ollama (e : OllamaError)
  | typeError (message : String)

/-- Outcome of one unary HTTP exchange performed by `httpx`:
a connection failure, a timeout, a response carrying a status code and
the result of `response.json()` (`.error` = the `JSONDecodeError` text for
an undecodable body), or any other unexpected exception. -/
inductive UnaryOutcome where
  | connectError (exc : String)
  | timeoutError (exc : String)
  | response (statusCode : Nat) (jsonBody : Except String Json)
  | otherError (exc : String)

/-- Outcome of opening one streaming HTTP exchange: a connection failure,
a timeout, or a response carrying a status code, the result of
`e.response.json()` (consulted only on a non-2xx status), and the lines
produced by `response.iter_lines()`. -/
inductive StreamOutcome where
  | connectError (exc : String)
  | timeoutError (exc : String)
  | response (statusCode : Nat) (errorBody : Except String Json) (lines : List String)

/-- httpx `response.is_success`: status in [200, 300); `raise_for_status`
raises `HTTPStatusError` exactly when this is false. -/
def isSuccessStatus (code : Nat) : Bool := 200 ≤ code && code < 300

/-- The error-message extraction of `_make_request` / `_stream_request` on a
non-2xx status: start from the fallback `"API error: {status}"`, replace it
with `error_data["error"]` when `e.response.json()` parses to a dict holding
the key `"error"`; any failure inside the `try` (undecodable body, body not
a dict, `in`/indexing `TypeError`) leaves the fallback in place. -/
def statusErrorMessage (statusCode : Nat) (body : Except String Json) : Json :=
  match body with
  | .ok (.obj fields) =>
    match lookupField fields "error" with
    | some v => v
    | none => .str ("API error: " ++ toString statusCode)
  | _ => .str ("API error: " ++ toString statusCode)

/-- `OllamaClient._make_request`: perform the exchange, `raise_for_status`,
parse the body.  Connection failures and timeouts become
`OllamaConnectionError` messages naming the base URL; a non-2xx status
becomes `OllamaAPIError(statusErrorMessage, status)`; any other exception
(notably `response.json()` failing on a 2xx body) becomes the base
`OllamaClientError("Unexpected error: ...")`. -/
def make_request (baseUrl : String) (_method _endpoint : String)
    (_jsonData : Option Json) (outcome : UnaryOutcome) : Except OllamaError Json :=
  match outcome with
  | .connectError e =>
    .error (.connectionError
      ("Failed to connect to Ollama server at " ++ baseUrl ++ ": " ++ e))
  | .timeoutError e =>
    .error (.connectionError ("Request to " ++ baseUrl ++ " timed out: " ++ e))
  | .response code body =>
    if isSuccessStatus code then
      match body with
      | .ok j => .ok j
      | .error e => .error (.clientError ("Unexpected error: " ++ e))
    else
      .error (.apiError (statusErrorMessage code body) (some code))
  | .otherError e => .error (.clientError ("Unexpected error: " ++ e))

/-- Falsiness of `line.strip()`: the line holds no non-whitespace
character (so stripping leaves the empty, falsy string). -/
def lineIsBlank (line : String) : Bool := line.data.all Char.isWhitespace

/-- `OllamaClient._stream_request`: open the stream, `raise_for_status`,
then for each line of `iter_lines`: skip it when blank (`line.strip()`
falsy), otherwise `yield json.loads(line)`, skipping lines whose parse
raises `JSONDecodeError`.  Open-time failures map exactly as in
`_make_request` (there is no generic `except Exception` here). -/
def stream_request (baseUrl : String) (loads : String → Option Json)
    (_method _endpoint : String) (_jsonData : Json)
    (outcome : StreamOutcome) : Except OllamaError (List Json) :=
  match outcome with
  | .connectError e =>
    .error (.connectionError
      ("Failed to connect to Ollama server at " ++ baseUrl ++ ": " ++ e))
  | .timeoutError e =>
    .error (.connectionError ("Request to " ++ baseUrl ++ " timed out: " ++ e))
  | .response code errorBody lines =>
    if isSuccessStatus code then
      .ok (lines.filterMap fun line => if lineIsBlank line then none else loads line)
    else
      .error (.apiError (statusErrorMessage code errorBody) (some code))

/-- `models.HostConfig`. -/
structure HostConfig where
  hostname : String
  port : Nat := 11434
  protocol : String := "http"
  verify_ssl : Bool := true

/-- `HostConfig.get_base_url`: `f"{self.protocol}://{self.hostname}:{self.port}"`. -/
def HostConfig.get_base_url (c : HostConfig) : String :=
  c.protocol ++ "://" ++ c.hostname ++ ":" ++ toString c.port


/-! ## Request models (`models.py`) and their `model_dump()` serialisation

Pydantic's `model_dump()` (as then serialised to the JSON request body by
httpx's `json=` argument) emits every declared field; a field whose value
is `None` is emitted as JSON `null`.  One `dump` helper per field shape. -/

/-- Serialisation of an `Optional[str]` field by `model_dump()`. -/
def dumpOptStr : Option String → Json
  | none => .null
  | some s => .str s

/-- Serialisation of an `Optional[list[int]]` field by `model_dump()`. -/
def dumpOptIntList : Option (List Int) → Json
  | none => .null
  | some xs => .arr (xs.map fun i => .num (i : Rat))

/-- Serialisation of an `Optional[list[str]]` field by `model_dump()`. -/
def dumpOptStrList : Option (List String) → Json
  | none => .null
  | some xs => .arr (xs.map Json.str)

/-- Serialisation of an `Optional[dict[str, Any]]` field by `model_dump()`. -/
def dumpOptDict : Option (List (String × Json)) → Json
  | none => .null
  | some fields => .obj fields

/-- `models.GenerateRequest`. -/
structure GenerateRequest where
  model : String
  prompt : String
  stream : Bool := true
  system : Option String := none
  template : Option String := none
  context : Option (List Int) := none
  options : Option (List (String × Json)) := none
  format : Option String := none
  raw : Bool := false
  keep_alive : Option String := none

/-- `GenerateRequest.model_dump()`: all ten declared fields, `None` as `null`. -/
def GenerateRequest.model_dump (r : GenerateRequest) : Json :=
  .obj [("model", .str r.model), ("prompt", .str r.prompt),
        ("stream", .bool r.stream), ("system", dumpOptStr r.system),
        ("template", dumpOptStr r.template),
        ("context", dumpOptIntList r.context),
        ("options", dumpOptDict r.options), ("format", dumpOptStr r.format),
        ("raw", .bool r.raw), ("keep_alive", dumpOptStr r.keep_alive)]

/-- The `role: Literal["system", "user", "assistant"]` of `models.ChatMessage`. -/
inductive ChatRole where
  | system
  | user
  | assistant
deriving DecidableEq

/-- Wire form of a `ChatRole`. -/
def ChatRole.dump : ChatRole → Json
  | .system => .str "system"
  | .user => .str "user"
  | .assistant => .str "assistant"

/-- `models.ChatMessage`. -/
structure ChatMessage where
  role : ChatRole
  content : String
  images : Option (List String) := none

/-- `ChatMessage.model_dump()` (nested inside `ChatRequest.model_dump()`). -/
def ChatMessage.model_dump (m : ChatMessage) : Json :=
  .obj [("role", m.role.dump), ("content", .str m.content),
        ("images", dumpOptStrList m.images)]

/-- `models.ChatRequest`. -/
structure ChatRequest where
  model : String
  messages : List ChatMessage
  stream : Bool := true
  format : Option String := none
  options : Option (List (String × Json)) := none
  template : Option String := none
  keep_alive : Option String := none

/-- `ChatRequest.model_dump()`. -/
def ChatRequest.model_dump (r : ChatRequest) : Json :=
  .obj [("model", .str r.model),
        ("messages", .arr (r.messages.map ChatMessage.model_dump)),
        ("stream", .bool r.stream), ("format", dumpOptStr r.format),
        ("options", dumpOptDict r.options),
        ("template", dumpOptStr r.template),
        ("keep_alive", dumpOptStr r.keep_alive)]

/-- `models.PullRequest`. -/
structure PullRequest where
  name : String
  insecure : Bool := false
  stream : Bool := true

/-- `PullRequest.model_dump()`. -/
def PullRequest.model_dump (r : PullRequest) : Json :=
  .obj [("name", .str r.name), ("insecure", .bool r.insecure),
        ("stream", .bool r.stream)]

/-- `models.PushRequest`. -/
structure PushRequest where
  name : String
  insecure : Bool := false
  stream : Bool := true

/-- `PushRequest.model_dump()`. -/
def PushRequest.model_dump (r : PushRequest) : Json :=
  .obj [("name", .str r.name), ("insecure", .bool r.insecure),
        ("stream", .bool r.stream)]

/-- `models.DeleteRequest`. -/
structure DeleteRequest where
  name : String

/-- `DeleteRequest.model_dump()`. -/
def DeleteRequest.model_dump (r : DeleteRequest) : Json :=
  .obj [("name", .str r.name)]

/-- `models.ShowRequest`. -/
structure ShowRequest where
  name : String

/-- `ShowRequest.model_dump()`. -/
def ShowRequest.model_dump (r : ShowRequest) : Json :=
  .obj [("name", .str r.name)]

/-- `models.EmbeddingsRequest`. -/
structure EmbeddingsRequest where
  model : String
  prompt : String
  options : Option (List (String × Json)) := none
  keep_alive : Option String := none

/-- `EmbeddingsRequest.model_dump()`. -/
def EmbeddingsRequest.model_dump (r : EmbeddingsRequest) : Json :=
  .obj [("model", .str r.model), ("prompt", .str r.prompt),
        ("options", dumpOptDict r.options),
        ("keep_alive", dumpOptStr r.keep_alive)]

/-! ## Response models (`models.py`) and pydantic validation

`Model(**data)` over a dict produced by `json.loads` either constructs the
typed object or raises `ValidationError`.  The extractors below model that
validation for JSON-decoded values: a required field must be present with
the declared type, an `Optional` field may be absent or `null`; unknown
keys are ignored (pydantic's default `extra="ignore"`).  JSON-decoded
payloads carry values of the exact declared runtime types, so the lax-mode
coercions pydantic additionally performs on other Python inputs are not
exercised and are not modelled. -/

/-- Validation of a required `str` field. -/
def getReqStr (fields : List (String × Json)) (key : String) :
    Except String String :=
  match lookupField fields key with
  | some (.str s) => .ok s
  | some _ => .error (key ++ ": not a string")
  | none => .error (key ++ ": field required")

/-- Validation of a required `bool` field. -/
def getReqBool (fields : List (String × Json)) (key : String) :
    Except String Bool :=
  match lookupField fields key with
  | some (.bool b) => .ok b
  | some _ => .error (key ++ ": not a boolean")
  | none => .error (key ++ ": field required")

/-- Validation of a required `int` field (a JSON number with no fractional
part). -/
def getReqInt (fields : List (String × Json)) (key : String) :
    Except String Int :=
  match lookupField fields key with
  | some (.num n) => if n.den = 1 then .ok n.num else .error (key ++ ": not an integer")
  | some _ => .error (key ++ ": not an integer")
  | none => .error (key ++ ": field required")

/-- Validation of an `Optional[str]` field (absent or `null` = `None`). -/
def getOptStr (fields : List (String × Json)) (key : String) :
    Except String (Option String) :=
  match lookupField fields key with
  | none => .ok none
  | some .null => .ok none
  | some (.str s) => .ok (some s)
  | some _ => .error (key ++ ": not a string")

/-- Validation of an `Optional[int]` field. -/
def getOptInt (fields : List (String × Json)) (key : String) :
    Except String (Option Int) :=
  match lookupField fields key with
  | none => .ok none
  | some .null => .ok none
  | some (.num n) => if n.den = 1 then .ok (some n.num) else .error (key ++ ": not an integer")
  | some _ => .error (key ++ ": not an integer")

/-- Validation of one element of a `list[int]` field. -/
def asInt (j : Json) : Except String Int :=
  match j with
  | .num n => if n.den = 1 then .ok n.num else .error "not an integer"
  | _ => .error "not an integer"

/-- Validation of one element of a `list[str]` field. -/
def asStr (j : Json) : Except String String :=
  match j with
  | .str s => .ok s
  | _ => .error "not a string"

/-- Validation of every element of a JSON array. -/
def mapValidate (f : Json → Except String α) : List Json → Except String (List α)
  | [] => .ok []
  | j :: rest => do
    let a ← f j
    let as' ← mapValidate f rest
    return a :: as'

/-- Validation of an `Optional[list[int]]` field. -/
def getOptIntList (fields : List (String × Json)) (key : String) :
    Except String (Option (List Int)) :=
  match lookupField fields key with
  | none => .ok none
  | some .null => .ok none
  | some (.arr js) => do
    let xs ← mapValidate asInt js
    return some xs
  | some _ => .error (key ++ ": not a list")

/-- Validation of an `Optional[list[str]]` field. -/
def getOptStrList (fields : List (String × Json)) (key : String) :
    Except String (Option (List String)) :=
  match lookupField fields key with
  | none => .ok none
  | some .null => .ok none
  | some (.arr js) => do
    let xs ← mapValidate asStr js
    return some xs
  | some _ => .error (key ++ ": not a list")

/-- Validation of an `Optional[dict[str, Any]]` field. -/
def getOptDict (fields : List (String × Json)) (key : String) :
    Except String (Option (List (String × Json))) :=
  match lookupField fields key with
  | none => .ok none
  | some .null => .ok none
  | some (.obj fs) => .ok (some fs)
  | some _ => .error (key ++ ": not a dict")

/-- Validation of a `str` field declared with a literal default (absent =
the default, present must be a string; `null` is not allowed since the
annotation is plain `str`). -/
def getStrDefault (fields : List (String × Json)) (key dflt : String) :
    Except String String :=
  match lookupField fields key with
  | none => .ok dflt
  | some (.str s) => .ok s
  | some _ => .error (key ++ ": not a string")

/-- `models.ModelDetails`. -/
structure ModelDetails where
  parent_model : Option String := none
  format : Option String := none
  family : Option String := none
  families : Option (List String) := none
  parameter_size : Option String := none
  quantization_level : Option String := none

/-- Pydantic validation of `ModelDetails(**fields)`. -/
def ModelDetails.validate (fields : List (String × Json)) :
    Except String ModelDetails := do
  let parent_model ← getOptStr fields "parent_model"
  let format ← getOptStr fields "format"
  let family ← getOptStr fields "family"
  let families ← getOptStrList fields "families"
  let parameter_size ← getOptStr fields "parameter_size"
  let quantization_level ← getOptStr fields "quantization_level"
  return { parent_model, format, family, families, parameter_size,
           quantization_level }

/-- Validation of an `Optional[ModelDetails]` field. -/
def getOptDetails (fields : List (String × Json)) (key : String) :
    Except String (Option ModelDetails) :=
  match lookupField fields key with
  | none => .ok none
  | some .null => .ok none
  | some (.obj fs) => do
    let d ← ModelDetails.validate fs
    return some d
  | some _ => .error (key ++ ": not an object")

/-- `models.ModelInfo`.  `model` has default `""` because some API
responses use `model` instead of `name`. -/
structure ModelInfo where
  name : String
  model : String := ""
  modified_at : String
  size : Int
  digest : String
  details : Option ModelDetails := none

/-- Pydantic validation of `ModelInfo(**fields)`: `name`, `modified_at`,
`size` and `digest` are required; `model` defaults to `""`. -/
def ModelInfo.validate (fields : List (String × Json)) :
    Except String ModelInfo := do
  let name ← getReqStr fields "name"
  let model ← getStrDefault fields "model" ""
  let modified_at ← getReqStr fields "modified_at"
  let size ← getReqInt fields "size"
  let digest ← getReqStr fields "digest"
  let details ← getOptDetails fields "details"
  return { name, model, modified_at, size, digest, details }

/-- `ModelInfo.get_name`: `return self.name or self.model` — Python `or`
yields `name` when it is truthy (non-empty), else `model`. -/
def ModelInfo.get_name (m : ModelInfo) : String :=
  if m.name = "" then m.model else m.name

/-- `models.GenerateResponse`. -/
structure GenerateResponse where
  model : String
  created_at : String
  response : String
  done : Bool
  context : Option (List Int) := none
  total_duration : Option Int := none
  load_duration : Option Int := none
  prompt_eval_count : Option Int := none
  prompt_eval_duration : Option Int := none
  eval_count : Option Int := none
  eval_duration : Option Int := none

/-- Pydantic validation of `GenerateResponse(**fields)`. -/
def GenerateResponse.validate (fields : List (String × Json)) :
    Except String GenerateResponse := do
  let model ← getReqStr fields "model"
  let created_at ← getReqStr fields "created_at"
  let response ← getReqStr fields "response"
  let done ← getReqBool fields "done"
  let context ← getOptIntList fields "context"
  let total_duration ← getOptInt fields "total_duration"
  let load_duration ← getOptInt fields "load_duration"
  let prompt_eval_count ← getOptInt fields "prompt_eval_count"
  let prompt_eval_duration ← getOptInt fields "prompt_eval_duration"
  let eval_count ← getOptInt fields "eval_count"
  let eval_duration ← getOptInt fields "eval_duration"
  return { model, created_at, response, done, context, total_duration,
           load_duration, prompt_eval_count, prompt_eval_duration,
           eval_count, eval_duration }

/-- Validation of the `role` literal of `ChatMessage`. -/
def asChatRole (s : String) : Except String ChatRole :=
  if s = "system" then .ok .system
  else if s = "user" then .ok .user
  else if s = "assistant" then .ok .assistant
  else .error "role: not one of system, user, assistant"

/-- Pydantic validation of `ChatMessage(**fields)`. -/
def ChatMessage.validate (fields : List (String × Json)) :
    Except String ChatMessage := do
  let roleStr ← getReqStr fields "role"
  let role ← asChatRole roleStr
  let content ← getReqStr fields "content"
  let images ← getOptStrList fields "images"
  return { role, content, images }

/-- `models.ChatResponse`. -/
structure ChatResponse where
  model : String
  created_at : String
  message : ChatMessage
  done : Bool
  total_duration : Option Int := none
  load_duration : Option Int := none
  prompt_eval_count : Option Int := none
  prompt_eval_duration : Option Int := none
  eval_count : Option Int := none
  eval_duration : Option Int := none

/-- Pydantic validation of `ChatResponse(**fields)` (nested `message`). -/
def ChatResponse.validate (fields : List (String × Json)) :
    Except String ChatResponse := do
  let model ← getReqStr fields "model"
  let created_at ← getReqStr fields "created_at"
  let message ←
    match lookupField fields "message" with
    | some (.obj fs) => ChatMessage.validate fs
    | some _ => .error "message: not an object"
    | none => .error "message: field required"
  let done ← getReqBool fields "done"
  let total_duration ← getOptInt fields "total_duration"
  let load_duration ← getOptInt fields "load_duration"
  let prompt_eval_count ← getOptInt fields "prompt_eval_count"
  let prompt_eval_duration ← getOptInt fields "prompt_eval_duration"
  let eval_count ← getOptInt fields "eval_count"
  let eval_duration ← getOptInt fields "eval_duration"
  return { model, created_at, message, done, total_duration, load_duration,
           prompt_eval_count, prompt_eval_duration, eval_count,
           eval_duration }

/-- `models.PullResponse`. -/
structure PullResponse where
  status : String
  digest : Option String := none
  total : Option Int := none
  completed : Option Int := none

/-- Pydantic validation of `PullResponse(**fields)`. -/
def PullResponse.validate (fields : List (String × Json)) :
    Except String PullResponse := do
  let status ← getReqStr fields "status"
  let digest ← getOptStr fields "digest"
  let total ← getOptInt fields "total"
  let completed ← getOptInt fields "completed"
  return { status, digest, total, completed }

/-- `models.PushResponse`. -/
structure PushResponse where
  status : String
  digest : Option String := none
  total : Option Int := none
  completed : Option Int := none

/-- Pydantic validation of `PushResponse(**fields)`. -/
def PushResponse.validate (fields : List (String × Json)) :
    Except String PushResponse := do
  let status ← getReqStr fields "status"
  let digest ← getOptStr fields "digest"
  let total ← getOptInt fields "total"
  let completed ← getOptInt fields "completed"
  return { status, digest, total, completed }

/-- `models.ShowResponse`. -/
structure ShowResponse where
  modelfile : Option String := none
  parameters : Option String := none
  template : Option String := none
  details : Option ModelDetails := none
  model_info : Option (List (String × Json)) := none

/-- Pydantic validation of `ShowResponse(**fields)`. -/
def ShowResponse.validate (fields : List (String × Json)) :
    Except String ShowResponse := do
  let modelfile ← getOptStr fields "modelfile"
  let parameters ← getOptStr fields "parameters"
  let template ← getOptStr fields "template"
  let details ← getOptDetails fields "details"
  let model_info ← getOptDict fields "model_info"
  return { modelfile, parameters, template, details, model_info }

/-- `models.ListModelsResponse`. -/
structure ListModelsResponse where
  models : List ModelInfo

/-- Pydantic validation of `ListModelsResponse(**fields)`: `models` must be
a list of valid `ModelInfo` payloads. -/
def ListModelsResponse.validate (fields : List (String × Json)) :
    Except String ListModelsResponse :=
  match lookupField fields "models" with
  | some (.arr js) => do
    let models ← mapValidate
      (fun j => match j with
        | .obj fs => ModelInfo.validate fs
        | _ => .error "models: element not an object") js
    return { models }
  | some _ => .error "models: not a list"
  | none => .error "models: field required"

/-- Validation of one element of the `embedding: list[float]` field (JSON
numbers, integral or not). -/
def asFloat (j : Json) : Except String Rat :=
  match j with
  | .num n => .ok n
  | _ => .error "not a number"

/-- `models.EmbeddingsResponse`. -/
structure EmbeddingsResponse where
  embedding : List Rat

/-- Pydantic validation of `EmbeddingsResponse(**fields)`. -/
def EmbeddingsResponse.validate (fields : List (String × Json)) :
    Except String EmbeddingsResponse :=
  match lookupField fields "embedding" with
  | some (.arr js) => do
    let embedding ← mapValidate asFloat js
    return { embedding }
  | some _ => .error "embedding: not a list"
  | none => .error "embedding: field required"

/-! ## Streaming operations: per-chunk decoding

Each streaming operation wraps `_stream_request` in a generator:
`try: yield Model(**chunk) except ValidationError: continue`.  Three
things can happen to one raw chunk: it is a JSON object and validates
(yielded), it is a JSON object and fails validation (`ValidationError`
caught, skipped), or it is not an object, in which case `Model(**chunk)`
raises `TypeError` — which the `except ValidationError` clause does not
catch, so it propagates to the consumer and the stream stops there. -/

/-- Fate of one raw stream chunk in a streaming operation's generator. -/
inductive ChunkStep (α : Type) where
  | yielded (chunk : α)
  | skipped
  | typeErrorRaised

/-- What `try: yield Model(**chunk) except ValidationError: continue` does
with one raw chunk, for the validator of `Model`. -/
def chunkOf (validate : List (String × Json) → Except String α) :
    Json → ChunkStep α
  | .obj fields =>
    match validate fields with
    | .ok r => .yielded r
    | .error _ => .skipped
  | _ => .typeErrorRaised

/-- Run a streaming operation's generator body over the raw chunks:
returns the chunks yielded to the consumer, paired with `true` when the
loop was cut short by an uncaught `TypeError` (in which case the remaining
raw chunks are never reached). -/
def runStream (step : Json → ChunkStep α) : List Json → List α × Bool
  | [] => ([], false)
  | j :: rest =>
    match step j with
    | .yielded a => ((runStream step rest).1.cons a, (runStream step rest).2)
    | .skipped => runStream step rest
    | .typeErrorRaised => ([], true)

/-- The chunk-decoding stage of `OllamaClient.generate` (streaming). -/
def generate_chunks (js : List Json) : List GenerateResponse × Bool :=
  runStream (chunkOf GenerateResponse.validate) js

/-- The chunk-decoding stage of `OllamaClient.chat` (streaming). -/
def chat_chunks (js : List Json) : List ChatResponse × Bool :=
  runStream (chunkOf ChatResponse.validate) js

/-- The chunk-decoding stage of `OllamaClient.pull_model` (streaming). -/
def pull_chunks (js : List Json) : List PullResponse × Bool :=
  runStream (chunkOf PullResponse.validate) js

/-- The chunk-decoding stage of `OllamaClient.push_model` (streaming). -/
def push_chunks (js : List Json) : List PushResponse × Bool :=
  runStream (chunkOf PushResponse.validate) js

/-- Observable run of a streaming operation: the chunks the consumer
received, and the exception (if any) delivered after them — a taxonomy
error raised when opening the stream, or the uncaught `TypeError`. -/
structure StreamRun (α : Type) where
  chunks : List α
  raised : Option PyError

/-- Message of the `TypeError` raised by `Model(**chunk)` on a non-mapping. -/
def starStarTypeErrorMsg : String := "argument after ** must be a mapping"

/-- Package the two stages of a streaming operation: open the stream (a
taxonomy error there is what the consumer sees on first iteration step),
then run the generator body over the raw chunks. -/
def runStreamOp (chunksOf : List Json → List α × Bool)
    (raw : Except OllamaError (List Json)) : StreamRun α :=
  match raw with
  | .error e => { chunks := [], raised := some (.ollama e) }
  | .ok js =>
    { chunks := (chunksOf js).1,
      raised := if (chunksOf js).2
                then some (.typeError starStarTypeErrorMsg) else none }

/-- `OllamaClient.generate` with `stream=True`. -/
def generate_stream (baseUrl : String) (loads : String → Option Json)
    (model prompt : String) (system template : Option String)
    (context : Option (List Int)) (options : Option (List (String × Json)))
    (outcome : StreamOutcome) : StreamRun GenerateResponse :=
  let request : GenerateRequest :=
    { model, prompt, stream := true, system, template, context, options }
  runStreamOp generate_chunks
    (stream_request baseUrl loads "POST" "/api/generate" request.model_dump
      outcome)

/-- `OllamaClient.chat` with `stream=True`. -/
def chat_stream (baseUrl : String) (loads : String → Option Json)
    (model : String) (messages : List ChatMessage)
    (options : Option (List (String × Json)))
    (outcome : StreamOutcome) : StreamRun ChatResponse :=
  let request : ChatRequest := { model, messages, stream := true, options }
  runStreamOp chat_chunks
    (stream_request baseUrl loads "POST" "/api/chat" request.model_dump
      outcome)

/-- `OllamaClient.pull_model` with `stream=True`. -/
def pull_model_stream (baseUrl : String) (loads : String → Option Json)
    (name : String) (insecure : Bool)
    (outcome : StreamOutcome) : StreamRun PullResponse :=
  let request : PullRequest := { name, stream := true, insecure }
  runStreamOp pull_chunks
    (stream_request baseUrl loads "POST" "/api/pull" request.model_dump
      outcome)

/-- `OllamaClient.push_model` with `stream=True`. -/
def push_model_stream (baseUrl : String) (loads : String → Option Json)
    (name : String) (insecure : Bool)
    (outcome : StreamOutcome) : StreamRun PushResponse :=
  let request : PushRequest := { name, stream := true, insecure }
  runStreamOp push_chunks
    (stream_request baseUrl loads "POST" "/api/push" request.model_dump
      outcome)

/-! ## Unary operations -/

/-- Shared shape of every unary operation: `data = self._make_request(...)`
propagates taxonomy errors unchanged; on success the operation-specific
continuation consumes the decoded JSON body. -/
def handleUnary (f : Json → Except PyError γ) :
    Except OllamaError Json → Except PyError γ
  | .error e => .error (.ollama e)
  | .ok j => f j

/-- Decode stage of `OllamaClient.list_models`: `ListModelsResponse(**data)`
returning `.models`; `ValidationError` becomes
`OllamaClientError("Failed to parse models list: ...")`; a non-dict body
raises `TypeError`. -/
def list_models_decode (data : Json) : Except PyError (List ModelInfo) :=
  match data with
  | .obj fields =>
    match ListModelsResponse.validate fields with
    | .ok resp => .ok resp.models
    | .error e =>
      .error (.ollama (.clientError ("Failed to parse models list: " ++ e)))
  | _ => .error (.typeError starStarTypeErrorMsg)

/-- `OllamaClient.list_models`. -/
def list_models (baseUrl : String) (outcome : UnaryOutcome) :
    Except PyError (List ModelInfo) :=
  handleUnary list_models_decode (make_request baseUrl "GET" "/api/tags" none outcome)

/-- Decode stage of `OllamaClient.show_model`. -/
def show_model_decode (data : Json) : Except PyError ShowResponse :=
  match data with
  | .obj fields =>
    match ShowResponse.validate fields with
    | .ok resp => .ok resp
    | .error e =>
      .error (.ollama (.clientError ("Failed to parse model details: " ++ e)))
  | _ => .error (.typeError starStarTypeErrorMsg)

/-- `OllamaClient.show_model`. -/
def show_model (baseUrl : String) (name : String) (outcome : UnaryOutcome) :
    Except PyError ShowResponse :=
  handleUnary show_model_decode
    (make_request baseUrl "POST" "/api/show"
      (some (ShowRequest.model_dump { name })) outcome)

/-- `OllamaClient.pull_model` with `stream=False`: the raw parsed response
body is returned as-is, with no typed decoding. -/
def pull_model_unary (baseUrl : String) (name : String) (insecure : Bool)
    (outcome : UnaryOutcome) : Except PyError Json :=
  let request : PullRequest := { name, stream := false, insecure }
  handleUnary Except.ok
    (make_request baseUrl "POST" "/api/pull" (some request.model_dump) outcome)

/-- `OllamaClient.push_model` with `stream=False`: the raw parsed response
body is returned as-is, with no typed decoding. -/
def push_model_unary (baseUrl : String) (name : String) (insecure : Bool)
    (outcome : UnaryOutcome) : Except PyError Json :=
  let request : PushRequest := { name, stream := false, insecure }
  handleUnary Except.ok
    (make_request baseUrl "POST" "/api/push" (some request.model_dump) outcome)

/-- `OllamaClient.delete_model`: the response body is ignored; success is
the absence of an error. -/
def delete_model (baseUrl : String) (name : String) (outcome : UnaryOutcome) :
    Except PyError Unit :=
  handleUnary (fun _ => .ok ())
    (make_request baseUrl "DELETE" "/api/delete"
      (some (DeleteRequest.model_dump { name })) outcome)

/-- Decode stage of `OllamaClient.generate` (unary). -/
def generate_decode (data : Json) : Except PyError GenerateResponse :=
  match data with
  | .obj fields =>
    match GenerateResponse.validate fields with
    | .ok resp => .ok resp
    | .error e =>
      .error (.ollama (.clientError ("Failed to parse generate response: " ++ e)))
  | _ => .error (.typeError starStarTypeErrorMsg)

/-- `OllamaClient.generate` with `stream=False`. -/
def generate_unary (baseUrl : String) (model prompt : String)
    (system template : Option String) (context : Option (List Int))
    (options : Option (List (String × Json))) (outcome : UnaryOutcome) :
    Except PyError GenerateResponse :=
  let request : GenerateRequest :=
    { model, prompt, stream := false, system, template, context, options }
  handleUnary generate_decode
    (make_request baseUrl "POST" "/api/generate" (some request.model_dump)
      outcome)

/-- Decode stage of `OllamaClient.chat` (unary). -/
def chat_decode (data : Json) : Except PyError ChatResponse :=
  match data with
  | .obj fields =>
    match ChatResponse.validate fields with
    | .ok resp => .ok resp
    | .error e =>
      .error (.ollama (.clientError ("Failed to parse chat response: " ++ e)))
  | _ => .error (.typeError starStarTypeErrorMsg)

/-- `OllamaClient.chat` with `stream=False`. -/
def chat_unary (baseUrl : String) (model : String)
    (messages : List ChatMessage) (options : Option (List (String × Json)))
    (outcome : UnaryOutcome) : Except PyError ChatResponse :=
  let request : ChatRequest := { model, messages, stream := false, options }
  handleUnary chat_decode
    (make_request baseUrl "POST" "/api/chat" (some request.model_dump) outcome)

/-- Decode stage of `OllamaClient.embeddings`. -/
def embeddings_decode (data : Json) : Except PyError (List Rat) :=
  match data with
  | .obj fields =>
    match EmbeddingsResponse.validate fields with
    | .ok resp => .ok resp.embedding
    | .error e =>
      .error (.ollama (.clientError ("Failed to parse embeddings response: " ++ e)))
  | _ => .error (.typeError starStarTypeErrorMsg)

/-- `OllamaClient.embeddings`. -/
def embeddings (baseUrl : String) (model prompt : String)
    (options : Option (List (String × Json))) (outcome : UnaryOutcome) :
    Except PyError (List Rat) :=
  let request : EmbeddingsRequest := { model, prompt, options }
  handleUnary embeddings_decode
    (make_request baseUrl "POST" "/api/embeddings" (some request.model_dump)
      outcome)

/-- `OllamaClient.health_check`: `try: self._make_request("GET", "/");
return True except Exception: return False`. -/
def health_check (baseUrl : String) (outcome : UnaryOutcome) : Bool :=
  match make_request baseUrl "GET" "/" none outcome with
  | .ok _ => true
  | .error _ => false

/-! ## The Python exception-class hierarchy of `client.py` -/

/-- The exception classes relevant to the client: Python's built-in
`BaseException`, `Exception` and `TypeError`, plus the three classes
declared in `client.py`. -/
inductive PyClass where
  | baseExceptionClass
  | exceptionClass
  | typeErrorClass
  | ollamaClientErrorClass
  | ollamaConnectionErrorClass
  | ollamaAPIErrorClass
deriving DecidableEq

/-- Direct superclass, read off the `class C(B):` declarations:
`OllamaClientError(Exception)`, `OllamaConnectionError(OllamaClientError)`,
`OllamaAPIError(OllamaClientError)`; built-ins per the Python docs. -/
def pySuperclass : PyClass → Option PyClass
  | .baseExceptionClass => none
  | .exceptionClass => some .baseExceptionClass
  | .typeErrorClass => some .exceptionClass
  | .ollamaClientErrorClass => some .exceptionClass
  | .ollamaConnectionErrorClass => some .ollamaClientErrorClass
  | .ollamaAPIErrorClass => some .ollamaClientErrorClass

/-- The superclass chain of a class, starting at the class itself (the
hierarchy has depth at most four, so fuel 8 is ample). -/
def superChain : Nat → Option PyClass → List PyClass
  | 0, _ => []
  | _, none => []
  | fuel + 1, some c => c :: superChain fuel (pySuperclass c)

/-- `issubclass(c, d)` — equivalently, whether an `except d:` clause
catches an instance of `c`. -/
def isSubclass (c d : PyClass) : Bool :=
  (superChain 8 (some c)).contains d

/-- The Python class of each taxonomy error. -/
def OllamaError.pyClass : OllamaError → PyClass
  | .connectionError _ => .ollamaConnectionErrorClass
  | .apiError _ _ => .ollamaAPIErrorClass
  | .clientError _ => .ollamaClientErrorClass

/-- The Python class of each exception escaping a client method. -/
def PyError.pyClass : PyError → PyClass
  | .ollama e => e.pyClass
  | .typeError _ => .typeErrorClass

/-! ## `utils.validate_model_name` -/

/-- The character class of the validation pattern: lowercase letters, digits, and the characters . _ : / - (dot, underscore, colon, slash, hyphen). -/
def isNamePatternChar (c : Char) : Bool :=
  ('a' ≤ c && c ≤ 'z') || ('0' ≤ c && c ≤ '9') ||
  c = '.' || c = '_' || c = ':' || c = '/' || c = '-'

/-- Whether the `$` anchor (no MULTILINE flag) matches at the given rest of
the input: at the very end, or just before a newline that ends the input. -/
def dollarAnchorHolds : List Char → Bool
  | [] => true
  | [c] => c = '\n'
  | _ => false

/-- Backtracking continuation of matching `[...]+$` after at least one
class character has been consumed: either the `$` anchor holds here, or
one more class character is consumed. -/
def plusDollarTail (cls : Char → Bool) : List Char → Bool
  | [] => true
  | c :: rest =>
    dollarAnchorHolds (c :: rest) || (cls c && plusDollarTail cls rest)

/-- `re.match(r"^[...]+$", s)` as a boolean: anchored at the start, one or
more class characters, then the `$` anchor. -/
def reMatchClassPlusDollar (cls : Char → Bool) : List Char → Bool
  | [] => false
  | c :: rest => cls c && plusDollarTail cls rest

/-- `utils.validate_model_name`: reject the empty string, then match
the pattern (anchored start, one or more class characters, anchored end) against `name.lower()` (ASCII lowercasing; non-ASCII
characters are outside the class either way). -/
def validate_model_name (name : String) : Bool :=
  if name = "" then false
  else reMatchClassPlusDollar isNamePatternChar (name.data.map Char.toLower)


/-! ## Spec-side predicates and helper lemmas -/

/-- `needle` occurs contiguously inside `haystack`. -/
def isSubstring (needle haystack : String) : Prop :=
  ∃ pre post, haystack = pre ++ needle ++ post

/-- A unary-operation result in which any raised `OllamaConnectionError`
has a message mentioning the given base URL. -/
def ollamaConnMentions (base : String) : Except OllamaError γ → Prop
  | .error (.connectionError msg) => isSubstring base msg
  | _ => True

/-- Same property at the level of exceptions escaping a client method. -/
def pyConnMentions (base : String) : Except PyError γ → Prop
  | .error (.ollama (.connectionError msg)) => isSubstring base msg
  | _ => True

/-- Same property for a streaming operation's run. -/
def streamConnMentions (base : String) (r : StreamRun α) : Prop :=
  match r.raised with
  | some (.ollama (.connectionError msg)) => isSubstring base msg
  | _ => True

/-- Classification of one raw stream line, for stating the NDJSON
interleaving property: a valid JSON line with its parse result, a blank
line, or a malformed (non-JSON, non-blank) line. -/
inductive LineKind where
  | valid (payload : Json)
  | blank
  | malformed

/-- The classification is truthful for the given parse function. -/
def kindMatches (loads : String → Option Json) : String × LineKind → Prop
  | (line, .valid payload) => lineIsBlank line = false ∧ loads line = some payload
  | (line, .blank) => lineIsBlank line = true
  | (line, .malformed) => lineIsBlank line = false ∧ loads line = none

/-- The parse results of the valid lines, in their original order. -/
def validPayloads : List (String × LineKind) → List Json
  | [] => []
  | (_, .valid payload) :: rest => payload :: validPayloads rest
  | (_, .blank) :: rest => validPayloads rest
  | (_, .malformed) :: rest => validPayloads rest

/-- The raw body's `error` field, when the body is a JSON object holding
one: the only case in which the code's message extraction succeeds. -/
def errorField : Except String Json → Option Json
  | .ok (.obj fields) => lookupField fields "error"
  | _ => none

/-- Whether any top-level field of a JSON object is `null`. -/
def Json.hasNullField : Json → Bool
  | .obj fields => fields.any fun f => f.2.isNull
  | _ => false

/-- The claim's criterion for a model name, stated from the spec's words:
non-empty, and every character is lowercase alphanumeric or one of dot,
underscore, colon, slash, hyphen. -/
def claimValidName (name : String) : Bool :=
  !name.data.isEmpty && name.data.all isNamePatternChar

/-- Characterisation of what `validate_model_name` accepts: after
lowercasing, the input is one or more class characters, optionally
followed by a single trailing newline (the regex `$` anchor, without
MULTILINE, also matches just before a final newline). -/
def amendedValidName (name : String) : Bool :=
  let cs := name.data.map Char.toLower
  (!cs.isEmpty && cs.all isNamePatternChar) ||
  (cs.getLast? == some '\n' && !cs.dropLast.isEmpty &&
    cs.dropLast.all isNamePatternChar)

/-- A concrete parse function for exercising the stream decoder: one
recognised line, everything else unparseable. -/
def demoLoads : String → Option Json := fun line =>
  if line = "alpha" then some (.obj [("status", .str "ok")]) else none

theorem make_request_connMentions (base m ep : String) (jd : Option Json)
    (o : UnaryOutcome) :
    ollamaConnMentions base (make_request base m ep jd o) := by
  cases o with
  | connectError e =>
    exact ⟨"Failed to connect to Ollama server at ", ": " ++ e,
      String.append_assoc _ _ _⟩
  | timeoutError e =>
    exact ⟨"Request to ", " timed out: " ++ e, String.append_assoc _ _ _⟩
  | response code body =>
    dsimp only [make_request]
    split
    · cases body <;> exact trivial
    · exact trivial
  | otherError e => exact trivial

theorem stream_request_connMentions (base : String)
    (loads : String → Option Json) (m ep : String) (jd : Json)
    (o : StreamOutcome) :
    ollamaConnMentions base (stream_request base loads m ep jd o) := by
  cases o with
  | connectError e =>
    exact ⟨"Failed to connect to Ollama server at ", ": " ++ e,
      String.append_assoc _ _ _⟩
  | timeoutError e =>
    exact ⟨"Request to ", " timed out: " ++ e, String.append_assoc _ _ _⟩
  | response code errorBody lines =>
    dsimp only [stream_request]
    split
    · exact trivial
    · exact trivial

theorem handleUnary_connMentions (base : String)
    (f : Json → Except PyError γ) (hf : ∀ j, pyConnMentions base (f j))
    (r : Except OllamaError Json) (hr : ollamaConnMentions base r) :
    pyConnMentions base (handleUnary f r) := by
  cases r with
  | ok j => exact hf j
  | error e =>
    cases e with
    | connectionError msg => exact hr
    | apiError m s => exact trivial
    | clientError m => exact trivial

theorem list_models_decode_connMentions (base : String) (j : Json) :
    pyConnMentions base (list_models_decode j) := by
  cases j with
  | obj fields =>
    dsimp only [list_models_decode]
    cases ListModelsResponse.validate fields <;> exact trivial
  | null => exact trivial
  | bool b => exact trivial
  | num n => exact trivial
  | str s => exact trivial
  | arr es => exact trivial

theorem show_model_decode_connMentions (base : String) (j : Json) :
    pyConnMentions base (show_model_decode j) := by
  cases j with
  | obj fields =>
    dsimp only [show_model_decode]
    cases ShowResponse.validate fields <;> exact trivial
  | null => exact trivial
  | bool b => exact trivial
  | num n => exact trivial
  | str s => exact trivial
  | arr es => exact trivial

theorem generate_decode_connMentions (base : String) (j : Json) :
    pyConnMentions base (generate_decode j) := by
  cases j with
  | obj fields =>
    dsimp only [generate_decode]
    cases GenerateResponse.validate fields <;> exact trivial
  | null => exact trivial
  | bool b => exact trivial
  | num n => exact trivial
  | str s => exact trivial
  | arr es => exact trivial

theorem chat_decode_connMentions (base : String) (j : Json) :
    pyConnMentions base (chat_decode j) := by
  cases j with
  | obj fields =>
    dsimp only [chat_decode]
    cases ChatResponse.validate fields <;> exact trivial
  | null => exact trivial
  | bool b => exact trivial
  | num n => exact trivial
  | str s => exact trivial
  | arr es => exact trivial

theorem embeddings_decode_connMentions (base : String) (j : Json) :
    pyConnMentions base (embeddings_decode j) := by
  cases j with
  | obj fields =>
    dsimp only [embeddings_decode]
    cases EmbeddingsResponse.validate fields <;> exact trivial
  | null => exact trivial
  | bool b => exact trivial
  | num n => exact trivial
  | str s => exact trivial
  | arr es => exact trivial

theorem runStreamOp_connMentions (base : String)
    (chunksOf : List Json → List α × Bool)
    (r : Except OllamaError (List Json)) (hr : ollamaConnMentions base r) :
    streamConnMentions base (runStreamOp chunksOf r) := by
  cases r with
  | ok js =>
    dsimp only [runStreamOp, streamConnMentions]
    cases (chunksOf js).2 <;> exact trivial
  | error e =>
    cases e with
    | connectionError msg => exact hr
    | apiError m s => exact trivial
    | clientError m => exact trivial


theorem filterMap_validPayloads (loads : String → Option Json)
    (items : List (String × LineKind))
    (hk : ∀ item ∈ items, kindMatches loads item) :
    (items.map Prod.fst).filterMap
      (fun line => if lineIsBlank line then none else loads line) =
      validPayloads items := by
  induction items with
  | nil => rfl
  | cons item rest ih =>
    obtain ⟨line, kind⟩ := item
    have hhead := hk (line, kind) (List.mem_cons_self _ _)
    have htail := fun it hit => hk it (List.mem_cons_of_mem _ hit)
    cases kind with
    | valid payload =>
      obtain ⟨hnb, hl⟩ := hhead
      have hf : (if lineIsBlank line = true then none else loads line)
          = some payload := by rw [if_neg (by simp [hnb]), hl]
      simp only [List.map_cons, List.filterMap_cons, hf, validPayloads]
      exact congrArg _ (ih htail)
    | blank =>
      have hf : (if lineIsBlank line = true then none else loads line)
          = none := if_pos hhead
      simp only [List.map_cons, List.filterMap_cons, hf, validPayloads]
      exact ih htail
    | malformed =>
      obtain ⟨hnb, hl⟩ := hhead
      have hf : (if lineIsBlank line = true then none else loads line)
          = none := by rw [if_neg (by simp [hnb]), hl]
      simp only [List.map_cons, List.filterMap_cons, hf, validPayloads]
      exact ih htail

theorem runStream_drop_invalid (v : List (String × Json) → Except String α)
    (pre post : List Json) (fields : List (String × Json)) (e : String)
    (hv : v fields = .error e) :
    runStream (chunkOf v) (pre ++ .obj fields :: post) =
      runStream (chunkOf v) (pre ++ post) := by
  induction pre with
  | nil => simp only [List.nil_append, runStream, chunkOf, hv]
  | cons j rest ih =>
    simp only [List.cons_append]
    cases hs : chunkOf v j <;> simp only [runStream, hs, ih]

theorem runStream_mem (v : List (String × Json) → Except String α)
    (js : List Json) (r : α) (h : r ∈ (runStream (chunkOf v) js).1) :
    ∃ fields, Json.obj fields ∈ js ∧ v fields = .ok r := by
  induction js with
  | nil => simp [runStream] at h
  | cons j rest ih =>
    cases j with
    | obj fields =>
      cases hv : v fields with
      | ok a =>
        simp only [runStream, chunkOf, hv] at h
        rcases List.mem_cons.mp h with rfl | htail
        · exact ⟨fields, List.mem_cons_self _ _, hv⟩
        · obtain ⟨fs, hmem, hok⟩ := ih htail
          exact ⟨fs, List.mem_cons_of_mem _ hmem, hok⟩
      | error e =>
        simp only [runStream, chunkOf, hv] at h
        obtain ⟨fs, hmem, hok⟩ := ih h
        exact ⟨fs, List.mem_cons_of_mem _ hmem, hok⟩
    | null => simp [runStream, chunkOf] at h
    | bool b => simp [runStream, chunkOf] at h
    | num n => simp [runStream, chunkOf] at h
    | str s => simp [runStream, chunkOf] at h
    | arr es => simp [runStream, chunkOf] at h





theorem plusDollarTail_eq (cls : Char → Bool) (cs : List Char) :
    plusDollarTail cls cs =
      (cs.all cls || (cs.getLast? == some '\n' && cs.dropLast.all cls)) := by
  induction cs with
  | nil => rfl
  | cons c rest ih =>
    cases rest with
    | nil =>
      simp only [plusDollarTail, dollarAnchorHolds, List.all_cons,
        List.all_nil, List.getLast?_singleton, List.dropLast_single,
        Bool.and_true]
      cases hc : (c == '\n') <;> cases hcl : cls c <;> simp_all
    | cons c2 rest2 =>
      have hstep : plusDollarTail cls (c :: c2 :: rest2)
          = (cls c && plusDollarTail cls (c2 :: rest2)) := rfl
      rw [hstep, ih, List.getLast?_cons_cons, List.dropLast_cons₂]
      simp only [List.all_cons]
      cases cls c <;> simp

/-! ## Claims -/

/-- C1: for every NDJSON stream body interleaving valid JSON lines, blank
lines, and malformed (non-JSON) lines, the streaming request on a 2xx
response yields exactly the valid lines' parsed JSON payloads in their
original order; blank and malformed lines produce no yielded output and
raise no error — the result is `.ok`, and decoding continues past them. -/
theorem c1_stream_yields_valid_lines_in_order :
    ∀ (baseUrl httpMethod endpoint : String) (payload : Json)
      (loads : String → Option Json) (errorBody : Except String Json)
      (code : Nat) (items : List (String × LineKind)),
      isSuccessStatus code = true →
      (∀ item ∈ items, kindMatches loads item) →
      stream_request baseUrl loads httpMethod endpoint payload
          (.response code errorBody (items.map Prod.fst)) =
        .ok (validPayloads items) := by
  intro baseUrl httpMethod endpoint payload loads errorBody code items h2xx hk
  dsimp only [stream_request]
  rw [if_pos h2xx, filterMap_validPayloads loads items hk]

/-- Witness for C1 at a concrete stream interleaving one valid line, one
blank line and one malformed line: exactly the valid line's payload comes
out, and no error is raised. -/
theorem c1_witness :
    stream_request "http://localhost:11434" demoLoads "POST" "/api/pull"
        (.obj []) (.response 200 (.ok .null) ["alpha", "", "not json"]) =
      .ok [.obj [("status", .str "ok")]] := by
  have h := c1_stream_yields_valid_lines_in_order "http://localhost:11434"
    "POST" "/api/pull" (.obj []) demoLoads (.ok .null) 200
    [("alpha", .valid (.obj [("status", .str "ok")])), ("", .blank),
     ("not json", .malformed)]
    (by decide)
    (by
      intro item hmem
      rcases List.mem_cons.mp hmem with rfl | hmem
      · exact ⟨by decide, rfl⟩
      · rcases List.mem_cons.mp hmem with rfl | hmem
        · show lineIsBlank "" = true
          decide
        · rcases List.mem_cons.mp hmem with rfl | hmem
          · exact ⟨by decide, rfl⟩
          · exact absurd hmem (List.not_mem_nil _))
  exact h

/-- C2: for every unary request answered with a non-2xx status, the client
raises `OllamaAPIError` whose status code equals the HTTP status and whose
message is the body's `error` field when the body is a JSON object holding
one, and otherwise the generic fallback `"API error: {status}"`, which
contains the numeric status. -/
theorem c2_api_error_status_and_message :
    ∀ (baseUrl httpMethod endpoint : String) (jsonData : Option Json)
      (code : Nat) (body : Except String Json),
      isSuccessStatus code = false →
      (make_request baseUrl httpMethod endpoint jsonData (.response code body) =
          .error (.apiError (statusErrorMessage code body) (some code)))
      ∧ (∀ fields v, body = .ok (.obj fields) →
          lookupField fields "error" = some v →
          statusErrorMessage code body = v)
      ∧ (errorField body = none →
          statusErrorMessage code body = .str ("API error: " ++ toString code))
      ∧ isSubstring (toString code) ("API error: " ++ toString code) := by
  intro baseUrl httpMethod endpoint jsonData code body hcode
  refine ⟨?_, ?_, ?_, ?_⟩
  · dsimp only [make_request]
    rw [if_neg (by simp [hcode])]
  · intro fields v hb hv
    subst hb
    dsimp only [statusErrorMessage]
    rw [hv]
  · intro he
    cases body with
    | error e => rfl
    | ok j =>
      cases j with
      | obj fields =>
        dsimp only [errorField] at he
        dsimp only [statusErrorMessage]
        rw [he]
      | null => rfl
      | bool b => rfl
      | num n => rfl
      | str s => rfl
      | arr es => rfl
  · exact ⟨"API error: ", "", (String.append_empty _).symm⟩

/-- Witness for C2: a 404 with body `{"error": "model not found"}` raises
`OllamaAPIError` with that message and status 404. -/
theorem c2_witness :
    make_request "http://localhost:11434" "DELETE" "/api/delete" none
        (.response 404 (.ok (.obj [("error", .str "model not found")]))) =
      .error (.apiError (.str "model not found") (some 404)) := by
  have h := c2_api_error_status_and_message "http://localhost:11434" "DELETE"
    "/api/delete" none 404 (.ok (.obj [("error", .str "model not found")]))
    (by decide)
  rw [h.1, h.2.1 [("error", Json.str "model not found")]
    (Json.str "model not found") rfl rfl]

/-- C4 counterexample: a 2xx response whose body is not decodable JSON
makes `health_check` return `false`, although the claim asserts `true`
for every 2xx response to `GET /` (`response.json()` raises, the generic
`except` turns it into `OllamaClientError`, and `health_check` catches it). -/
theorem c4_counterexample :
    isSuccessStatus 200 = true ∧
    health_check "http://localhost:11434"
      (.response 200 (.error "Expecting value: line 1 column 1 (char 0)")) =
      false :=
  ⟨rfl, rfl⟩

/-- C4 amended: `health_check` never raises and returns `true` exactly for
a 2xx response whose body decodes as JSON; every other outcome — connection
failure, timeout, non-2xx status, undecodable 2xx body, or any other
transport exception — yields `false`. -/
theorem c4_health_check_characterisation :
    ∀ (baseUrl : String) (outcome : UnaryOutcome),
      health_check baseUrl outcome =
        (match outcome with
         | .response code (.ok _) => isSuccessStatus code
         | _ => false) := by
  intro baseUrl outcome
  cases outcome with
  | connectError e => rfl
  | timeoutError e => rfl
  | otherError e => rfl
  | response code body =>
    cases body with
    | ok j =>
      cases hc : isSuccessStatus code <;>
        simp [health_check, make_request, hc]
    | error e =>
      cases hc : isSuccessStatus code <;>
        simp [health_check, make_request, hc]

/-- C6: a `ModelInfo` decoded from a server payload resolves its name to
the non-empty one of `name`/`model`, preferring `name` whenever `name` is
non-empty (so also when both are) and falling back to `model` when `name`
is empty. -/
theorem c6_resolved_name :
    ∀ (fields : List (String × Json)) (m : ModelInfo),
      ModelInfo.validate fields = .ok m →
      (m.name ≠ "" → m.get_name = m.name) ∧
      (m.name = "" → m.get_name = m.model) := by
  intro fields m _
  constructor
  · intro hn
    dsimp only [ModelInfo.get_name]
    rw [if_neg hn]
  · intro h0
    dsimp only [ModelInfo.get_name]
    rw [if_pos h0]

/-- Witness for C6 at a concrete payload carrying `name` but no `model`. -/
theorem c6_witness :
    ModelInfo.validate
        [("name", .str "llama2"), ("modified_at", .str "2024-01-01T00:00:00Z"),
         ("size", .num 3825819519), ("digest", .str "abc123")] =
      .ok (ModelInfo.mk "llama2" "" "2024-01-01T00:00:00Z" 3825819519 "abc123"
        none)
    ∧ (ModelInfo.mk "llama2" "" "2024-01-01T00:00:00Z" 3825819519 "abc123"
        none).get_name = "llama2" :=
  ⟨rfl,
   (c6_resolved_name
      [("name", .str "llama2"), ("modified_at", .str "2024-01-01T00:00:00Z"),
       ("size", .num 3825819519), ("digest", .str "abc123")]
      (ModelInfo.mk "llama2" "" "2024-01-01T00:00:00Z" 3825819519 "abc123"
        none) rfl).1 (by decide)⟩

/-- C10: `pull_model` and `push_model` with `stream=False` return the raw
parsed JSON body of any 2xx response as-is — no typed decoding happens, so
no client-side decode error can arise for a valid-JSON 2xx body. -/
theorem c10_pull_push_unary_raw :
    ∀ (baseUrl name : String) (insecure : Bool) (code : Nat) (j : Json),
      isSuccessStatus code = true →
      pull_model_unary baseUrl name insecure (.response code (.ok j)) = .ok j
      ∧ push_model_unary baseUrl name insecure (.response code (.ok j)) = .ok j := by
  intro baseUrl name insecure code j h
  constructor <;>
    · dsimp only [pull_model_unary, push_model_unary, make_request, handleUnary]
      rw [if_pos h]

/-- Witness for C10 at a concrete 2xx body. -/
theorem c10_witness :
    pull_model_unary "http://localhost:11434" "llama2" false
        (.response 200 (.ok (.obj [("status", .str "success")]))) =
      .ok (.obj [("status", .str "success")]) ∧
    push_model_unary "http://localhost:11434" "llama2" false
        (.response 200 (.ok (.obj [("status", .str "success")]))) =
      .ok (.obj [("status", .str "success")]) :=
  c10_pull_push_unary_raw "http://localhost:11434" "llama2" false 200
    (.obj [("status", .str "success")]) (by decide)

theorem reMatch_eq (cls : Char → Bool) (cs : List Char) :
    reMatchClassPlusDollar cls cs =
      ((!cs.isEmpty && cs.all cls) ||
       (cs.getLast? == some '\n' && !cs.dropLast.isEmpty &&
         cs.dropLast.all cls)) := by
  cases cs with
  | nil => rfl
  | cons c rest =>
    show (cls c && plusDollarTail cls rest) = _
    rw [plusDollarTail_eq]
    cases rest with
    | nil => simp
    | cons c2 rest2 =>
      rw [List.getLast?_cons_cons, List.dropLast_cons₂]
      simp only [List.all_cons, List.isEmpty_cons, Bool.not_false,
        Bool.true_and]
      cases cls c <;> simp

/-- C3 counterexample: the generate request built with no optional
arguments (mirroring `OllamaClient.generate`, which leaves `format`, `raw`
and `keep_alive` at their defaults) serialises the absent `system` and
`keep_alive` fields as explicit JSON `null` in the wire payload —
`model_dump()` emits `None`-valued fields instead of omitting them. -/
theorem c3_counterexample :
    Json.getField (GenerateRequest.model_dump
        (GenerateRequest.mk "llama2" "hi" true none none none none none false
          none)) "system" = some .null
    ∧ Json.getField (GenerateRequest.model_dump
        (GenerateRequest.mk "llama2" "hi" true none none none none none false
          none)) "keep_alive" = some .null :=
  ⟨rfl, rfl⟩

/-- C3 amended: `model_dump()` serialises every declared field, so for
generate, chat and embeddings requests each optional field the caller did
not supply appears as an explicit `null` placeholder in the JSON body; the
pull, push, show and delete request payloads have no optional fields and
contain no nulls. -/
theorem c3_absent_optionals_serialise_as_null :
    ∀ (model prompt name : String) (stream insecure : Bool)
      (messages : List ChatMessage),
      Json.getField (GenerateRequest.model_dump { model, prompt, stream })
          "system" = some .null
      ∧ Json.getField (GenerateRequest.model_dump { model, prompt, stream })
          "template" = some .null
      ∧ Json.getField (GenerateRequest.model_dump { model, prompt, stream })
          "context" = some .null
      ∧ Json.getField (GenerateRequest.model_dump { model, prompt, stream })
          "options" = some .null
      ∧ Json.getField (GenerateRequest.model_dump { model, prompt, stream })
          "format" = some .null
      ∧ Json.getField (GenerateRequest.model_dump { model, prompt, stream })
          "keep_alive" = some .null
      ∧ Json.getField (ChatRequest.model_dump { model, messages, stream })
          "format" = some .null
      ∧ Json.getField (ChatRequest.model_dump { model, messages, stream })
          "options" = some .null
      ∧ Json.getField (ChatRequest.model_dump { model, messages, stream })
          "template" = some .null
      ∧ Json.getField (ChatRequest.model_dump { model, messages, stream })
          "keep_alive" = some .null
      ∧ Json.getField (EmbeddingsRequest.model_dump { model, prompt })
          "options" = some .null
      ∧ Json.getField (EmbeddingsRequest.model_dump { model, prompt })
          "keep_alive" = some .null
      ∧ Json.hasNullField (PullRequest.model_dump { name, insecure, stream })
          = false
      ∧ Json.hasNullField (PushRequest.model_dump { name, insecure, stream })
          = false
      ∧ Json.hasNullField (ShowRequest.model_dump { name }) = false
      ∧ Json.hasNullField (DeleteRequest.model_dump { name }) = false := by
  intro model prompt name stream insecure messages
  exact ⟨rfl, rfl, rfl, rfl, rfl, rfl, rfl, rfl, rfl, rfl, rfl, rfl, rfl,
    rfl, rfl, rfl⟩

/-- C5 counterexample: in a generate stream the middle line `5` parses as
JSON but is not an object, so `GenerateResponse(**chunk)` raises
`TypeError`, which the `except ValidationError` clause does not catch: the
run aborts (flag `true`) and the valid chunk after it is never yielded —
the line is not merely dropped with the stream continuing. -/
theorem c5_counterexample :
    generate_chunks
        [.obj [("model", .str "llama2"),
               ("created_at", .str "2024-01-01T00:00:00Z"),
               ("response", .str "Hel"), ("done", .bool false)],
         .num 5,
         .obj [("model", .str "llama2"),
               ("created_at", .str "2024-01-01T00:00:00Z"),
               ("response", .str "lo"), ("done", .bool false)]] =
      ([GenerateResponse.mk "llama2" "2024-01-01T00:00:00Z" "Hel" false
          none none none none none none none], true) :=
  rfl

/-- C5 amended: every chunk yielded by a streaming operation (generate,
chat, pull, push) is the successful typed validation of one of the
stream's JSON objects, and a line that parses as a JSON object but fails
typed validation is dropped without being yielded and without aborting the
stream; a line whose JSON is not an object instead raises an uncaught
`TypeError` that aborts the stream. -/
theorem c5_stream_chunks_validated :
    (∀ (pre post : List Json) (fields : List (String × Json)) (e : String),
       GenerateResponse.validate fields = .error e →
       generate_chunks (pre ++ .obj fields :: post) =
         generate_chunks (pre ++ post))
    ∧ (∀ (js : List Json) (r : GenerateResponse),
       r ∈ (generate_chunks js).1 →
       ∃ fields, Json.obj fields ∈ js ∧
         GenerateResponse.validate fields = .ok r)
    ∧ (∀ (pre post : List Json) (fields : List (String × Json)) (e : String),
       ChatResponse.validate fields = .error e →
       chat_chunks (pre ++ .obj fields :: post) = chat_chunks (pre ++ post))
    ∧ (∀ (js : List Json) (r : ChatResponse), r ∈ (chat_chunks js).1 →
       ∃ fields, Json.obj fields ∈ js ∧ ChatResponse.validate fields = .ok r)
    ∧ (∀ (pre post : List Json) (fields : List (String × Json)) (e : String),
       PullResponse.validate fields = .error e →
       pull_chunks (pre ++ .obj fields :: post) = pull_chunks (pre ++ post))
    ∧ (∀ (js : List Json) (r : PullResponse), r ∈ (pull_chunks js).1 →
       ∃ fields, Json.obj fields ∈ js ∧ PullResponse.validate fields = .ok r)
    ∧ (∀ (pre post : List Json) (fields : List (String × Json)) (e : String),
       PushResponse.validate fields = .error e →
       push_chunks (pre ++ .obj fields :: post) = push_chunks (pre ++ post))
    ∧ (∀ (js : List Json) (r : PushResponse), r ∈ (push_chunks js).1 →
       ∃ fields, Json.obj fields ∈ js ∧ PushResponse.validate fields = .ok r) :=
  ⟨fun pre post fields e h => runStream_drop_invalid _ pre post fields e h,
   fun js r h => runStream_mem _ js r h,
   fun pre post fields e h => runStream_drop_invalid _ pre post fields e h,
   fun js r h => runStream_mem _ js r h,
   fun pre post fields e h => runStream_drop_invalid _ pre post fields e h,
   fun js r h => runStream_mem _ js r h,
   fun pre post fields e h => runStream_drop_invalid _ pre post fields e h,
   fun js r h => runStream_mem _ js r h⟩

/-- Witness for C5: a JSON-object chunk missing all required fields is
dropped from each of the four streams without affecting the rest. -/
theorem c5_witness :
    generate_chunks [.obj []] = generate_chunks []
    ∧ chat_chunks [.obj []] = chat_chunks []
    ∧ pull_chunks [.obj []] = pull_chunks []
    ∧ push_chunks [.obj []] = push_chunks [] :=
  ⟨c5_stream_chunks_validated.1 [] [] [] "model: field required" rfl,
   c5_stream_chunks_validated.2.2.1 [] [] [] "model: field required" rfl,
   c5_stream_chunks_validated.2.2.2.2.1 [] [] [] "status: field required" rfl,
   c5_stream_chunks_validated.2.2.2.2.2.2.1 [] [] []
     "status: field required" rfl⟩

/-- C7: every `OllamaConnectionError` raised by any operation — unary or
streaming — carries a message that includes the attempted base URL, and
the base URL derived from the connection profile is
`protocol://hostname:port`. -/
theorem c7_connection_errors_include_base_url :
    ∀ (cfg : HostConfig) (o : UnaryOutcome) (so : StreamOutcome)
      (loads : String → Option Json) (name prompt : String) (insecure : Bool)
      (messages : List ChatMessage) (system template : Option String)
      (context : Option (List Int))
      (options : Option (List (String × Json))),
      cfg.get_base_url =
        cfg.protocol ++ "://" ++ cfg.hostname ++ ":" ++ toString cfg.port
      ∧ pyConnMentions cfg.get_base_url (list_models cfg.get_base_url o)
      ∧ pyConnMentions cfg.get_base_url (show_model cfg.get_base_url name o)
      ∧ pyConnMentions cfg.get_base_url
          (pull_model_unary cfg.get_base_url name insecure o)
      ∧ pyConnMentions cfg.get_base_url
          (push_model_unary cfg.get_base_url name insecure o)
      ∧ pyConnMentions cfg.get_base_url (delete_model cfg.get_base_url name o)
      ∧ pyConnMentions cfg.get_base_url
          (generate_unary cfg.get_base_url name prompt system template context
            options o)
      ∧ pyConnMentions cfg.get_base_url
          (chat_unary cfg.get_base_url name messages options o)
      ∧ pyConnMentions cfg.get_base_url
          (embeddings cfg.get_base_url name prompt options o)
      ∧ streamConnMentions cfg.get_base_url
          (generate_stream cfg.get_base_url loads name prompt system template
            context options so)
      ∧ streamConnMentions cfg.get_base_url
          (chat_stream cfg.get_base_url loads name messages options so)
      ∧ streamConnMentions cfg.get_base_url
          (pull_model_stream cfg.get_base_url loads name insecure so)
      ∧ streamConnMentions cfg.get_base_url
          (push_model_stream cfg.get_base_url loads name insecure so) := by
  intro cfg o so loads name prompt insecure messages system template context
    options
  refine ⟨rfl, ?_, ?_, ?_, ?_, ?_, ?_, ?_, ?_, ?_, ?_, ?_, ?_⟩
  · exact handleUnary_connMentions _ _ (list_models_decode_connMentions _) _
      (make_request_connMentions _ _ _ _ _)
  · exact handleUnary_connMentions _ _ (show_model_decode_connMentions _) _
      (make_request_connMentions _ _ _ _ _)
  · exact handleUnary_connMentions cfg.get_base_url Except.ok
      (fun _ => trivial) _ (make_request_connMentions _ _ _ _ _)
  · exact handleUnary_connMentions cfg.get_base_url Except.ok
      (fun _ => trivial) _ (make_request_connMentions _ _ _ _ _)
  · exact handleUnary_connMentions cfg.get_base_url (fun _ => Except.ok ())
      (fun _ => trivial) _ (make_request_connMentions _ _ _ _ _)
  · exact handleUnary_connMentions _ _ (generate_decode_connMentions _) _
      (make_request_connMentions _ _ _ _ _)
  · exact handleUnary_connMentions _ _ (chat_decode_connMentions _) _
      (make_request_connMentions _ _ _ _ _)
  · exact handleUnary_connMentions _ _ (embeddings_decode_connMentions _) _
      (make_request_connMentions _ _ _ _ _)
  · exact runStreamOp_connMentions _ _ _
      (stream_request_connMentions _ _ _ _ _ _)
  · exact runStreamOp_connMentions _ _ _
      (stream_request_connMentions _ _ _ _ _ _)
  · exact runStreamOp_connMentions _ _ _
      (stream_request_connMentions _ _ _ _ _ _)
  · exact runStreamOp_connMentions _ _ _
      (stream_request_connMentions _ _ _ _ _ _)

/-- C8 counterexample: `validate_model_name` lowercases its input before
matching, so the uppercase name `"ABC"` is accepted, although the claim
requires `false` for every string not consisting of lowercase class
characters. -/
theorem c8_counterexample :
    validate_model_name "ABC" = true ∧ claimValidName "ABC" = false :=
  ⟨by decide, by decide⟩

/-- C8 amended: `validate_model_name` returns `true` exactly for strings
that, after lowercasing, are one or more characters drawn from lowercase
alphanumerics and dot, underscore, colon, slash, hyphen — optionally
followed by one trailing newline (the regex `$` anchor, without MULTILINE,
also matches just before a final newline); in particular uppercase letters
are accepted case-insensitively and the empty string is rejected. -/
theorem c8_validate_model_name_characterisation :
    ∀ name : String, validate_model_name name = amendedValidName name := by
  intro name
  by_cases h : name = ""
  · subst h; rfl
  · dsimp only [validate_model_name, amendedValidName]
    rw [if_neg h]
    exact reMatch_eq _ _

/-- C9 counterexample: a unary generate call answered 2xx with the JSON
array `[]` raises `TypeError` (from `GenerateResponse(**data)` on a
non-mapping), and `TypeError` is not an instance of `OllamaClientError` —
so not every error raised by a unary operation is of the client-error base
type. -/
theorem c9_counterexample :
    generate_unary "http://localhost:11434" "llama2" "hi" none none none none
        (.response 200 (.ok (.arr []))) =
      .error (.typeError starStarTypeErrorMsg)
    ∧ isSubclass (PyError.typeError starStarTypeErrorMsg).pyClass
        .ollamaClientErrorClass = false :=
  ⟨rfl, rfl⟩

/-- C9 amended: the connection-error and API-error classes are subclasses
of the client-error base class, and every taxonomy error raised by an
operation carries a class caught by an `except OllamaClientError` handler;
however a unary operation can additionally raise `TypeError` (outside the
taxonomy) when a 2xx JSON body is not an object. -/
theorem c9_error_subtyping :
    isSubclass .ollamaConnectionErrorClass .ollamaClientErrorClass = true
    ∧ isSubclass .ollamaAPIErrorClass .ollamaClientErrorClass = true
    ∧ (∀ e : OllamaError, isSubclass e.pyClass .ollamaClientErrorClass = true)
    ∧ isSubclass .typeErrorClass .ollamaClientErrorClass = false :=
  ⟨rfl, rfl, fun e => by cases e <;> rfl, rfl⟩
